import Mathlib

/-!
Verification development for the bill-agent repository.

The file shallowly embeds the core of the repository:
* `app/services/ocr_service.py` — the geometry-based text reconstructor
  `_reconstruct_text` and the extraction wrapper `extract_text_from_image`;
* `app/api/endpoints.py` — the submit endpoint `analyze_bill`, the status
  endpoint `get_task_status`, and the background orchestrator
  `process_bill_analysis` (modelled as an explicit trace of the registry
  snapshots it writes);
* `app/services/ai_agent.py` — `BillRecordModel` and `analyze_bill_text`;
* `app/services/database_service.py` — `create_bill_record`;
* `app/models/schemas.py` — the `BillCreate.amount_must_be_positive`
  validator.

Python floats (confidence scores, polygon coordinates, amounts) are
modelled as exact fractions; machine-level details (HTTP transport, actual
OCR inference, SQL) are modelled as environment-supplied stage outcomes.
-/

namespace BillAgent

/-- Exact fractions `num / den` modelling Python floats. Fractions are kept
unreduced and compared by cross-multiplication, so every operation is a
plain integer computation (values are always built with a positive
denominator). -/
structure Q where
  num : ℤ
  den : ℕ := 1
deriving DecidableEq

instance (n : ℕ) : OfNat Q n := ⟨⟨n, 1⟩⟩

instance : Neg Q := ⟨fun a => ⟨-a.num, a.den⟩⟩

/-- Decimal literals such as `0.5` denote the exact fraction `5 / 10`. -/
instance : OfScientific Q :=
  ⟨fun m s e => if s then ⟨(m : ℤ), 10 ^ e⟩ else ⟨(m : ℤ) * 10 ^ e, 1⟩⟩

instance : LE Q := ⟨fun a b => a.num * (b.den : ℤ) ≤ b.num * (a.den : ℤ)⟩

instance : LT Q := ⟨fun a b => a.num * (b.den : ℤ) < b.num * (a.den : ℤ)⟩

instance : Add Q := ⟨fun a b => ⟨a.num * (b.den : ℤ) + b.num * (a.den : ℤ), a.den * b.den⟩⟩

instance : Sub Q := ⟨fun a b => ⟨a.num * (b.den : ℤ) - b.num * (a.den : ℤ), a.den * b.den⟩⟩

instance : DecidableRel (α := Q) (· ≤ ·) :=
  fun a b => inferInstanceAs (Decidable (a.num * (b.den : ℤ) ≤ b.num * (a.den : ℤ)))

instance : DecidableRel (α := Q) (· < ·) :=
  fun a b => inferInstanceAs (Decidable (a.num * (b.den : ℤ) < b.num * (a.den : ℤ)))

/-- Python's binary `min` (returns the first argument on a tie). -/
def qMin (a b : Q) : Q := if a ≤ b then a else b

/-- Python's `abs` on an exact fraction. -/
def qAbs (a : Q) : Q := ⟨(a.num.natAbs : ℤ), a.den⟩

/-- A 2-D point of a detection polygon, modelled as a Python sequence of
coordinates (index 0 is X, index 1 is Y); shorter sequences model malformed
points whose indexing raises. -/
abbrev Point := List Q

/-- The value stored under the `position` key of a text block.
`poly` is a list of points; `scalar` models the value actually produced by
`extract_text_from_image`, whose `zip(item['rec_texts'], item['rec_scores'],
item['rec_scores'])` binds the position to the confidence score (a float),
not to the polygon. -/
inductive Position where
  | poly (pts : List Point)
  | scalar (q : Q)
deriving DecidableEq

/-- One element of the `text_blocks` list built in
`OCRService.extract_text_from_image`: a dict with keys
`text`, `score`, `position`. -/
structure TextBlock where
  text : String
  score : Q
  position : Position
deriving DecidableEq

instance : Inhabited TextBlock := ⟨⟨"", 0, Position.scalar 0⟩⟩

/-- Python's `str.strip()` on the underlying character list: drop leading
and trailing whitespace. -/
def stripChars (cs : List Char) : List Char :=
  ((cs.dropWhile Char.isWhitespace).reverse.dropWhile Char.isWhitespace).reverse

/-- Python's `str.strip()`. -/
def pyStrip (s : String) : String := String.mk (stripChars s.data)

/-- The expression `min(point[1] for point in position)` from `ocr_service.py`.
`none` models the Python exception: TypeError when the position is a bare
scalar, ValueError when the polygon is empty, IndexError when a point has
fewer than two coordinates. -/
def minY (p : Position) : Option Q :=
  match p with
  | .scalar _ => none
  | .poly pts =>
    match pts.mapM (fun pt => pt[1]?) with
    | none => none
    | some [] => none
    | some (y :: ys) => some (ys.foldl qMin y)

/-- The expression `min(point[0] for point in position)` from `ocr_service.py`. -/
def minX (p : Position) : Option Q :=
  match p with
  | .scalar _ => none
  | .poly pts =>
    match pts.mapM (fun pt => pt[0]?) with
    | none => none
    | some [] => none
    | some (x :: xs) => some (xs.foldl qMin x)

/-- The sort key `min(point[1] for point in x['position'])`, on the success
path where every key is defined (the default is never reached there). -/
def yKey (b : TextBlock) : Q := (minY b.position).getD 0

/-- The sort key `min(point[0] for point in x['position'])`, on the success
path where every key is defined. -/
def xKey (b : TextBlock) : Q := (minX b.position).getD 0

/-- Insert an element into an already sorted accumulator, after every
element whose key is less than or equal: together with `sortStable` this
realises the (unique) stable ascending sort that Python's `list.sort(key=...)`
performs. -/
def insertStable (key : TextBlock → Q) (b : TextBlock) : List TextBlock → List TextBlock
  | [] => [b]
  | c :: cs => if key b < key c then b :: c :: cs else c :: insertStable key b cs

/-- Stable ascending sort by `key`, the behaviour of `list.sort(key=...)`. -/
def sortStable (key : TextBlock → Q) (l : List TextBlock) : List TextBlock :=
  l.foldl (fun acc b => insertStable key b acc) []

/-- The grouping loop of `_reconstruct_text` (lines 27–44 of
`ocr_service.py`), with `cur` playing `current_line` (always nonempty when
the loop runs): a block joins the current line when the absolute difference
between its top-Y and the top-Y of the line's LAST element
(`current_line[-1]`) is at most the threshold `y_threshold = 20`, otherwise
the line is closed and a new one begins. -/
def bandGo (cur : List TextBlock) : List TextBlock → List (List TextBlock)
  | [] => [cur]
  | b :: bs =>
    if qAbs (yKey b - yKey (cur.getLastD b)) ≤ 20 then bandGo (cur ++ [b]) bs
    else cur :: bandGo [b] bs

/-- Partition a (sorted) block list into lines, per the loop of
`_reconstruct_text`. -/
def bands : List TextBlock → List (List TextBlock)
  | [] => []
  | b :: bs => bandGo [b] bs

/-- The join `" ".join(block['text'] for block in line)`. -/
def lineText (l : List TextBlock) : String :=
  String.intercalate " " (l.map (fun b => b.text))

/-- The Y sort keys of all blocks, `none` as soon as computing one raises:
`list.sort(key=...)` evaluates the key of every element before any
reordering, so a key exception leaves the list in its original order. -/
def yKeys : List TextBlock → Option (List Q)
  | [] => some []
  | b :: bs =>
    match minY b.position, yKeys bs with
    | some y, some ys => some (y :: ys)
    | _, _ => none

/-- The body of the `try` block of `_reconstruct_text`: `none` models an
exception. The only fallible step is the computation of the sort keys
(`min(point[1] ...)`), which CPython evaluates for every element before any
reordering, so on failure the list is left in its original order; after a
successful Y-sort, every polygon is nonempty with 2-coordinate points, hence
the X-keys are defined as well and grouping and joining cannot fail. -/
def reconstructTry (blocks : List TextBlock) : Option String :=
  match yKeys blocks with
  | none => none
  | some _ =>
    let sorted := sortStable yKey blocks
    let ls := (bands sorted).map (sortStable xKey)
    some (pyStrip (String.intercalate "" (ls.map (fun l => lineText l ++ "\n"))))

/-- The function `_reconstruct_text` from `app/services/ocr_service.py`: empty input
yields `""`; otherwise the try-path result, or on an exception the fallback
`" ".join(block['text'] for block in text_blocks)` over the blocks in their
original order. -/
def _reconstruct_text (blocks : List TextBlock) : String :=
  if blocks = [] then ""
  else
    match reconstructTry blocks with
    | some s => s
    | none => String.intercalate " " (blocks.map (fun b => b.text))

/-- One OCR detection as consumed from `self.ocr.predict`: a recognised
text with its confidence score. -/
structure Detection where
  text : String
  score : Q
deriving DecidableEq

/-- Outcome of the OCR engine inside `extract_text_from_image`: either the
prediction result (a list of result items, each carrying its detections),
or an internal exception with message `msg` (raised anywhere inside the
`try`, e.g. by `_optimize_image_for_ocr` on undecodable bytes). -/
inductive OcrOutcome where
  | ok (items : List (List Detection))
  | exn (msg : String)
deriving DecidableEq

/-- The confidence filter of `extract_text_from_image`: keep a detection
iff `score > 0.5`. -/
def filteredDetections (items : List (List Detection)) : List Detection :=
  items.flatten.filter (fun d => (0.5 : Q) < d.score)

/-- The method `OCRService.extract_text_from_image`. Internal exceptions are caught and
turned into the string `"图片文字识别失败: " ++ msg` — the function itself never
raises. On success it returns `""` when nothing was recognised, else it
builds `text_blocks` from the filtered detections — with `position` bound to
the score by the `zip` slip — and hands them to `_reconstruct_text`. -/
def extract_text_from_image (o : OcrOutcome) : String :=
  match o with
  | .exn msg => "图片文字识别失败: " ++ msg
  | .ok items =>
    if items = [] ∨ items.headD [] = [] then ""
    else
      _reconstruct_text ((filteredDetections items).map
        (fun d => { text := d.text, score := d.score, position := Position.scalar d.score }))

/-- An axis-aligned rectangle polygon with top edge at `y` and left edge at
`x`, used for concrete test fragments. -/
def rectAt (y x : Q) : Position :=
  Position.poly [[x, y], [x + 50, y], [x + 50, y + 10], [x, y + 10]]

/-- The model `BillRecordModel` from `app/services/ai_agent.py`: the pydantic model the
AI parse stage instantiates. Note that it carries no constraint on `amount`. -/
structure BillRecordModel where
  payment_method : String
  amount : Q
  transaction_time : String
  product_type : String
  merchant : Option String := none
  description : Option String := none
deriving DecidableEq

/-- The `BillCreate.amount_must_be_positive` field validator from
`app/models/schemas.py`: rejects an amount `≤ 0`. -/
def amount_must_be_positive (v : Q) : Except String Q :=
  if v ≤ 0 then Except.error "金额必须大于0" else Except.ok v

/-- The minimum-content test `not bill_text or len(bill_text.strip()) < 10`,
written identically at `endpoints.py` line 90 and `ai_agent.py` line 79. -/
def insufficientText (t : String) : Prop := t = "" ∨ (pyStrip t).length < 10

instance (t : String) : Decidable (insufficientText t) := by
  unfold insufficientText; infer_instance

/-- The method `AIAnalysisAgent.analyze_bill_text`: raises when the text is falsy or
shorter than 10 characters after stripping, otherwise runs the LLM chain
(whose outcome `chain` is supplied by the environment) and instantiates
`BillRecordModel` from the parsed JSON with no further validation; every
exception is re-raised wrapped as `"AI账单分析失败: " ++ e`. -/
def analyze_bill_text (chain : Except String BillRecordModel) (bill_text : String) :
    Except String BillRecordModel :=
  if insufficientText bill_text then
    Except.error "AI账单分析失败: 账单文本内容过短，无法分析"
  else
    match chain with
    | .error e => Except.error ("AI账单分析失败: " ++ e)
    | .ok m => Except.ok m

/-- A persisted `bill_records` row, per `BillRecord` in
`app/models/database.py` as filled in by
`DatabaseService.create_bill_record`. -/
structure BillRecord where
  payment_method : String
  amount : Q
  currency : String
  transaction_time : String
  product_type : String
  merchant : Option String
  description : Option String
  image_path : String
  ocr_text : String
  status : String
deriving DecidableEq

/-- The method `DatabaseService.create_bill_record`: on a database failure (outcome
supplied by the environment) the exception is re-raised wrapped as
`"数据库操作失败: " ++ e`; on success a row is inserted carrying the parsed
fields unchanged, `currency = "CNY"`, `status = "completed"`, and the fresh
`record_id` is returned. -/
def create_bill_record (dbOutcome : Except String String) (bill : BillRecordModel)
    (image_path : String) (ocr_text : String) : Except String (String × BillRecord) :=
  match dbOutcome with
  | .error e => Except.error ("数据库操作失败: " ++ e)
  | .ok rid =>
    Except.ok (rid,
      { payment_method := bill.payment_method
        amount := bill.amount
        currency := "CNY"
        transaction_time := bill.transaction_time
        product_type := bill.product_type
        merchant := bill.merchant
        description := bill.description
        image_path := image_path
        ocr_text := ocr_text
        status := "completed" })

/-- One entry of the `task_status` dict in `app/api/endpoints.py`. Keys that
a given update has not yet written are absent (`none`). -/
structure TaskState where
  status : String
  start_time : ℤ
  message : String
  image_path : Option String := none
  ocr_text_length : Option Nat := none
  record_id : Option String := none
  processing_time : Option ℤ := none
  error_message : Option String := none
deriving DecidableEq

instance : Inhabited TaskState := ⟨{ status := "", start_time := 0, message := "" }⟩

/-- The environment of one background run: the outcome each external stage
collaborator would produce, plus the wall-clock time at completion.
`upload` is the outcome of `minio_client.upload_image` (error = message of
the exception it raises), `ocr` feeds `extract_text_from_image`, `chain` is
the LLM-chain outcome inside `analyze_bill_text`, `db` the raw database
outcome inside `create_bill_record`. -/
structure Env where
  upload : Except String String
  ocr : OcrOutcome
  chain : Except String BillRecordModel
  db : Except String String
  fin : ℤ

/-- The `except` clause of `process_bill_analysis`: mark the task failed,
record the literal error message, keep every other key. -/
def failUpdate (s : TaskState) (e : String) : TaskState :=
  { s with status := "failed", error_message := some e, message := "处理失败" }

/-- Registry snapshot after `task_status[task_id]["message"] = "上传图片到MiniO"`. -/
def afterUpload (s0 : TaskState) : TaskState := { s0 with message := "上传图片到MiniO" }

/-- Snapshot after `task_status[task_id]["image_path"] = image_path`. -/
def afterKey (s0 : TaskState) (k : String) : TaskState :=
  { afterUpload s0 with image_path := some k }

/-- Snapshot after `task_status[task_id]["message"] = "进行OCR文字识别"`. -/
def afterOcrMsg (s0 : TaskState) (k : String) : TaskState :=
  { afterKey s0 k with message := "进行OCR文字识别" }

/-- Snapshot after `task_status[task_id]["ocr_text_length"] = len(bill_text)`. -/
def afterLen (s0 : TaskState) (k : String) (n : ℕ) : TaskState :=
  { afterOcrMsg s0 k with ocr_text_length := some n }

/-- Snapshot after `task_status[task_id]["message"] = "AI解析账单内容"`. -/
def afterAiMsg (s0 : TaskState) (k : String) (n : ℕ) : TaskState :=
  { afterLen s0 k n with message := "AI解析账单内容" }

/-- Snapshot after `task_status[task_id]["message"] = "保存到数据库"`. -/
def afterDbMsg (s0 : TaskState) (k : String) (n : ℕ) : TaskState :=
  { afterAiMsg s0 k n with message := "保存到数据库" }

/-- The final `task_status[task_id].update({...})` of the success path. -/
def afterDone (s0 : TaskState) (k : String) (n : ℕ) (rid : String) (pt : ℤ) : TaskState :=
  { afterDbMsg s0 k n with
    status := "completed"
    record_id := some rid
    processing_time := some pt
    message := "处理完成" }

/-- The background task `process_bill_analysis` from `app/api/endpoints.py`, as the sequence of
registry snapshots it writes (in write order) together with the list of
database rows it persists. Each list element is the value of
`task_status[task_id]` after one mutation of the dict; any exception raised
by a stage is caught by the surrounding `except` and becomes a `failUpdate`
with the exception's literal message. -/
def process_bill_analysis (env : Env) (s0 : TaskState) : List TaskState × List BillRecord :=
  match env.upload with
  | .error e => ([afterUpload s0, failUpdate (afterUpload s0) e], [])
  | .ok image_path =>
    let bill_text := extract_text_from_image env.ocr
    if insufficientText bill_text then
      ([afterUpload s0, afterKey s0 image_path, afterOcrMsg s0 image_path,
        failUpdate (afterOcrMsg s0 image_path) "无法从图片中识别出足够的文字信息"], [])
    else
      match analyze_bill_text env.chain bill_text with
      | .error e =>
        ([afterUpload s0, afterKey s0 image_path, afterOcrMsg s0 image_path,
          afterLen s0 image_path bill_text.length, afterAiMsg s0 image_path bill_text.length,
          failUpdate (afterAiMsg s0 image_path bill_text.length) e], [])
      | .ok bill =>
        match create_bill_record env.db bill image_path bill_text with
        | .error e =>
          ([afterUpload s0, afterKey s0 image_path, afterOcrMsg s0 image_path,
            afterLen s0 image_path bill_text.length, afterAiMsg s0 image_path bill_text.length,
            afterDbMsg s0 image_path bill_text.length,
            failUpdate (afterDbMsg s0 image_path bill_text.length) e], [])
        | .ok (rid, row) =>
          ([afterUpload s0, afterKey s0 image_path, afterOcrMsg s0 image_path,
            afterLen s0 image_path bill_text.length, afterAiMsg s0 image_path bill_text.length,
            afterDbMsg s0 image_path bill_text.length,
            afterDone s0 image_path bill_text.length rid (env.fin - s0.start_time)], [row])

/-- The registry entry created by `analyze_bill` at submission time. -/
def initTask (t0 : ℤ) : TaskState :=
  { status := "processing", start_time := t0, message := "开始处理图片" }

/-- All registry snapshots of one job's lifetime, starting from the entry
written by `analyze_bill` before it returns. -/
def fullTrace (env : Env) (t0 : ℤ) : List TaskState :=
  initTask t0 :: (process_bill_analysis env (initTask t0)).1

/-- The last element of a snapshot list (the registry value that remains
once the background task has finished). -/
def lastD : List TaskState → TaskState
  | [] => default
  | [s] => s
  | _ :: s :: rest => lastD (s :: rest)

/-- The registry entry after the background task finished. -/
def finalTask (env : Env) (t0 : ℤ) : TaskState :=
  lastD (fullTrace env t0)

/-- The database rows persisted by one job. -/
def persistedRecords (env : Env) (t0 : ℤ) : List BillRecord :=
  (process_bill_analysis env (initTask t0)).2

/-- The in-memory `task_status` dict (most recent insertion first). -/
abbrev Registry := List (String × TaskState)

/-- Lookup in the `task_status` dict. -/
def lookupTask (reg : Registry) (id : String) : Option TaskState :=
  (reg.find? (fun p => p.1 == id)).map (fun p => p.2)

/-- The registry effect of the submit endpoint `analyze_bill`: a fresh
`task_id` is generated and `task_status[task_id]` is written BEFORE the
background task is scheduled and before the response is returned. -/
def analyze_bill (reg : Registry) (task_id : String) (t0 : ℤ) : Registry :=
  (task_id, initTask t0) :: reg

/-- The status endpoint `get_task_status`: 404 when the identifier is not a
key of `task_status`, otherwise the stored entry. -/
def get_task_status (reg : Registry) (id : String) : Except Nat TaskState :=
  match lookupTask reg id with
  | none => Except.error 404
  | some s => Except.ok s

/-- Modelled from the spec (§4.4 step 3), for comparison with the source:
the same grouping loop but with the join test against the top-Y of the
line's FIRST fragment, as the spec words it. -/
def bandGoFirst (cur : List TextBlock) : List TextBlock → List (List TextBlock)
  | [] => [cur]
  | b :: bs =>
    if qAbs (yKey b - yKey (cur.headD b)) ≤ 20 then bandGoFirst (cur ++ [b]) bs
    else cur :: bandGoFirst [b] bs

/-- Modelled from the spec: partition into lines using the first-fragment
join rule. -/
def bandsFirst : List TextBlock → List (List TextBlock)
  | [] => []
  | b :: bs => bandGoFirst [b] bs

/-- Modelled from the spec: the reconstructor with the spec's first-fragment
band rule substituted for the source's last-fragment rule, all other steps
identical. -/
def reconstructFirstRule (blocks : List TextBlock) : String :=
  if blocks = [] then ""
  else
    match yKeys blocks with
    | none => String.intercalate " " (blocks.map (fun b => b.text))
    | some _ =>
      let sorted := sortStable yKey blocks
      let ls := (bandsFirst sorted).map (sortStable xKey)
      pyStrip (String.intercalate "" (ls.map (fun l => lineText l ++ "\n")))

/-- The join condition of the source's grouping loop: the candidate `b`
stays in the line whose last element is `a`. -/
def sameBand (a b : TextBlock) : Prop := qAbs (yKey b - yKey a) ≤ 20

instance (a b : TextBlock) : Decidable (sameBand a b) := by
  unfold sameBand; infer_instance

/-- Between two consecutive produced lines the join condition failed. -/
def bandBreak (l₁ l₂ : List TextBlock) : Prop :=
  ¬ sameBand (l₁.getLastD default) (l₂.headD default)

/-- Concrete fragments on bands y = 0, 15, 30: the chain 0–15–30 stays one
line under the source's last-fragment rule, but splits after y = 15 under
the spec's first-fragment rule. -/
def cexBlocks : List TextBlock :=
  [⟨"a", 0.9, rectAt 0 0⟩, ⟨"b", 0.9, rectAt 15 0⟩, ⟨"c", 0.9, rectAt 30 0⟩]

/-- Blocks whose first polygon is empty, so the Y-key computation raises. -/
def badBlocks : List TextBlock := [⟨"X", 0.9, Position.poly []⟩, ⟨"Y", 0.9, rectAt 0 0⟩]

/-- A well-formed parsed bill used by concrete environments. -/
def demoBill : BillRecordModel :=
  { payment_method := "支付宝"
    amount := 18.5
    transaction_time := "2024-01-01 12:00:00"
    product_type := "餐饮" }

/-- An environment whose OCR engine fails internally (`exn "boom"`) while
every other stage succeeds. -/
def envOcrCrash : Env :=
  { upload := Except.ok "bill_images/k.jpg"
    ocr := OcrOutcome.exn "boom"
    chain := Except.ok demoBill
    db := Except.ok "rid-1"
    fin := 5 }

/-- An environment in which the upload stage raises. -/
def envUploadCrash : Env :=
  { upload := Except.error "图片上传失败: S3Error"
    ocr := OcrOutcome.exn "x"
    chain := Except.error "y"
    db := Except.error "z"
    fin := 0 }

/-- A parsed bill whose amount is −5, as returned by a structured parse. -/
def negBill : BillRecordModel :=
  { payment_method := "支付宝"
    amount := -(5 : Q)
    transaction_time := "2024-01-01 12:00:00"
    product_type := "餐饮" }

/-- An environment whose structured parse yields amount = −5 and whose other
stages succeed. -/
def envNegAmount : Env :=
  { upload := Except.ok "bill_images/n.jpg"
    ocr := OcrOutcome.ok [[⟨"微信支付 支出 5.00 2024-01-01", 0.9⟩]]
    chain := Except.ok negBill
    db := Except.ok "rid-9"
    fin := 3 }

/-- An environment whose OCR yields only the 5-character text "short". -/
def envShortText : Env :=
  { upload := Except.ok "bill_images/s.png"
    ocr := OcrOutcome.ok [[⟨"short", 0.9⟩]]
    chain := Except.ok demoBill
    db := Except.ok "rid-2"
    fin := 2 }

lemma bandGo_ne_nil (bs : List TextBlock) : ∀ cur, bandGo cur bs ≠ [] := by
  induction bs with
  | nil => intro cur; simp [bandGo]
  | cons b bs ih =>
    intro cur
    rw [bandGo]
    split
    · exact ih (cur ++ [b])
    · simp

lemma bandGo_flatten (bs : List TextBlock) :
    ∀ cur, (bandGo cur bs).flatten = cur ++ bs := by
  induction bs with
  | nil => intro cur; simp [bandGo]
  | cons b bs ih =>
    intro cur
    rw [bandGo]
    split
    · rw [ih (cur ++ [b])]; simp
    · simp [ih [b]]

lemma mem_bandGo_ne_nil (bs : List TextBlock) :
    ∀ cur, cur ≠ [] → ∀ line ∈ bandGo cur bs, line ≠ [] := by
  induction bs with
  | nil =>
    intro cur hcur line hline
    simp [bandGo] at hline
    exact hline ▸ hcur
  | cons b bs ih =>
    intro cur hcur line hline
    rw [bandGo] at hline
    split at hline
    · exact ih (cur ++ [b]) (by simp) line hline
    · rcases List.mem_cons.mp hline with rfl | h
      · exact hcur
      · exact ih [b] (by simp) line h

lemma headD_append_of_ne_nil {l t : List TextBlock} (h : l ≠ []) (d : TextBlock) :
    (l ++ t).headD d = l.headD d := by
  cases l with
  | nil => exact absurd rfl h
  | cons a as => rfl

lemma getLastD_append_singleton (l : List TextBlock) (b d : TextBlock) :
    (l ++ [b]).getLastD d = b := by
  rw [List.getLastD_eq_getLast?, List.getLast?_concat]
  rfl

lemma getLastD_irrel {l : List TextBlock} (h : l ≠ []) (d d' : TextBlock) :
    l.getLastD d = l.getLastD d' := by
  rw [List.getLastD_eq_getLast?, List.getLastD_eq_getLast?, List.getLast?_eq_getLast l h]
  rfl

lemma mem_bandGo_chain (bs : List TextBlock) :
    ∀ cur, cur ≠ [] → cur.Chain' sameBand →
      ∀ line ∈ bandGo cur bs, line.Chain' sameBand := by
  induction bs with
  | nil =>
    intro cur _ hchain line hline
    simp [bandGo] at hline
    exact hline ▸ hchain
  | cons b bs ih =>
    intro cur hcur hchain line hline
    rw [bandGo] at hline
    split at hline
    · rename_i hjoin
      refine ih (cur ++ [b]) (by simp) ?_ line hline
      rw [List.chain'_append]
      refine ⟨hchain, List.chain'_singleton b, ?_⟩
      intro x hx y hy
      simp at hy
      subst hy
      have hx' : cur.getLastD b = x := by
        rw [List.getLastD_eq_getLast?, Option.mem_def.mp hx]
        rfl
      rw [← hx']
      exact hjoin
    · rcases List.mem_cons.mp hline with rfl | h
      · exact hchain
      · exact ih [b] (by simp) (List.chain'_singleton b) line h

lemma bandGo_headD (bs : List TextBlock) :
    ∀ cur, cur ≠ [] → ((bandGo cur bs).headD []).headD default = cur.headD default := by
  induction bs with
  | nil => intro cur _; simp [bandGo]
  | cons b bs ih =>
    intro cur hcur
    rw [bandGo]
    split
    · rw [ih (cur ++ [b]) (by simp)]
      exact headD_append_of_ne_nil hcur default
    · simp

lemma bandGo_boundary (bs : List TextBlock) :
    ∀ cur, cur ≠ [] → (bandGo cur bs).Chain' bandBreak := by
  induction bs with
  | nil => intro cur _; simp [bandGo]
  | cons b bs ih =>
    intro cur hcur
    rw [bandGo]
    split
    · exact ih (cur ++ [b]) (by simp)
    · rename_i hsplit
      rw [List.chain'_cons']
      refine ⟨?_, ih [b] (by simp)⟩
      intro y hy
      have hne := bandGo_ne_nil bs [b]
      have hhead : y.headD default = b := by
        have := bandGo_headD bs [b] (by simp)
        rcases hq : bandGo [b] bs with _ | ⟨l₀, rest⟩
        · exact absurd hq hne
        · rw [hq] at hy this
          simp at hy
          subst hy
          simpa using this
      unfold bandBreak sameBand
      rw [hhead]
      rw [getLastD_irrel hcur default b]
      exact hsplit

lemma bands_flatten (l : List TextBlock) : (bands l).flatten = l := by
  cases l with
  | nil => simp [bands]
  | cons b bs => simp [bands, bandGo_flatten]

lemma q_le_then_not_lt {s t : Q} (h : s ≤ t) : ¬ t < s := by
  intro hlt
  have h' : s.num * (t.den : ℤ) ≤ t.num * (s.den : ℤ) := h
  have hlt' : t.num * (s.den : ℤ) < s.num * (t.den : ℤ) := hlt
  omega

lemma yKeys_eq_none (blocks : List TextBlock) :
    yKeys blocks = none ↔ ∃ b ∈ blocks, minY b.position = none := by
  induction blocks with
  | nil => simp [yKeys]
  | cons a l ih =>
    rw [yKeys]
    cases h : minY a.position with
    | none => simp [h]
    | some y =>
      cases h2 : yKeys l with
      | none => simp [h, h2, ih.mp h2]
      | some v =>
        have : ∀ b ∈ l, ¬ minY b.position = none := by
          intro b hb hnone
          exact (by simp [h2] : yKeys l ≠ none) (ih.mpr ⟨b, hb, hnone⟩)
        simp [h, h2]
        exact this

/-- C3 (counterexample): on the sorted fragments with top-Y 0, 15, 30 the
source reconstructor keeps all three in ONE line (each consecutive gap is
15 ≤ 20, measured against the line's LAST fragment), while the claimed
first-fragment rule closes the line before y = 30 (|30 − 0| > 20). The two
outputs differ, so the claim misstates the join test. -/
theorem c3_banding_counterexample :
    _reconstruct_text cexBlocks = "a b c" ∧ reconstructFirstRule cexBlocks = "a b\nc" := by
  decide

/-- C3 (amended): in the source's grouping loop a fragment joins the current
line exactly when the absolute difference between its top-Y and the top-Y of
the line's LAST fragment is at most 20; the produced lines partition the
scanned sequence, within a line every consecutive pair satisfies the band
test, and at every boundary between consecutive lines the test fails. -/
theorem c3_last_fragment_banding (l : List TextBlock) :
    (bands l).flatten = l ∧
    (∀ line ∈ bands l, line ≠ [] ∧ line.Chain' sameBand) ∧
    (bands l).Chain' bandBreak := by
  refine ⟨bands_flatten l, ?_, ?_⟩
  · intro line hline
    cases l with
    | nil => simp [bands] at hline
    | cons b bs =>
      exact ⟨mem_bandGo_ne_nil bs [b] (by simp) line hline,
        mem_bandGo_chain bs [b] (by simp) (List.chain'_singleton b) line hline⟩
  · cases l with
    | nil => simp [bands]
    | cons b bs => exact bandGo_boundary bs [b] (by simp)

/-- C3 (witness): the amended theorem evaluated on the concrete band
0–15–30, which forms a single line whose consecutive gaps satisfy the
last-fragment test. -/
theorem c3_witness :
    (bands cexBlocks).flatten = cexBlocks ∧ cexBlocks ≠ [] ∧
      cexBlocks.Chain' sameBand ∧ (bands cexBlocks).Chain' bandBreak :=
  have h := c3_last_fragment_banding cexBlocks
  have hm : cexBlocks ∈ bands cexBlocks := by decide
  ⟨h.1, (h.2.1 cexBlocks hm).1, (h.2.1 cexBlocks hm).2, h.2.2⟩

/-- C8: the try-path of the reconstructor fails exactly when the Y-sort-key
computation fails on some block (bare scalar position, empty polygon, or a
point with fewer than two coordinates) — the grouping and joining steps
never fail on their own — and in that case `_reconstruct_text` returns the
fragment texts joined by single spaces in their original order instead of
raising. -/
theorem c8_fallback (blocks : List TextBlock) :
    (reconstructTry blocks = none ↔ ∃ b ∈ blocks, minY b.position = none) ∧
    (reconstructTry blocks = none →
      _reconstruct_text blocks = String.intercalate " " (blocks.map (fun b => b.text))) := by
  constructor
  · rw [← yKeys_eq_none]
    unfold reconstructTry
    cases h : yKeys blocks with
    | none => simp
    | some v => simp
  · intro h
    have hne : blocks ≠ [] := by
      intro hnil
      subst hnil
      simp [reconstructTry, yKeys] at h
    unfold _reconstruct_text
    rw [if_neg hne, h]

/-- C8 (witness): on a malformed first polygon the try-path fails and the
reconstructor falls back to the original-order space join. -/
theorem c8_witness :
    reconstructTry badBlocks = none ∧ _reconstruct_text badBlocks = "X Y" :=
  have h : reconstructTry badBlocks = none := by decide
  ⟨h, by rw [(c8_fallback badBlocks).2 h]; decide⟩

/-- C9: the reconstructor round-trips — two well-formed fragments in the
same horizontal band come out left-to-right space-joined as "A B", and two
fragments 50 units apart vertically come out on separate lines as
"Line1\nLine2". -/
theorem c9_round_trip :
    _reconstruct_text [⟨"A", 0.9, rectAt 0 0⟩, ⟨"B", 0.9, rectAt 0 100⟩] = "A B" ∧
    _reconstruct_text [⟨"Line1", 0.9, rectAt 0 0⟩, ⟨"Line2", 0.9, rectAt 50 0⟩] =
      "Line1\nLine2" := by
  decide

/-- C7: a detection with confidence at or below 0.5 never reaches the
reconstructed text (it is dropped by the `score > 0.5` filter), and when
every detection is at or below the threshold the extraction returns the
empty string rather than an error. -/
theorem c7_confidence_filter (items : List (List Detection)) :
    (∀ d ∈ items.flatten, d.score ≤ 0.5 → d ∉ filteredDetections items) ∧
    ((∀ d ∈ items.flatten, d.score ≤ 0.5) → extract_text_from_image (OcrOutcome.ok items) = "") := by
  constructor
  · intro d _ hle hmem
    unfold filteredDetections at hmem
    have hlt := of_decide_eq_true (List.mem_filter.mp hmem).2
    exact q_le_then_not_lt hle hlt
  · intro hall
    have hfil : filteredDetections items = [] := by
      unfold filteredDetections
      rw [List.filter_eq_nil_iff]
      intro d hd
      simpa using q_le_then_not_lt (hall d hd)
    simp only [extract_text_from_image]
    rw [hfil]
    split
    · rfl
    · rfl

/-- C7 (witness): a lone detection with confidence 0.4 is filtered out and
the end-to-end extraction result is the empty string. -/
theorem c7_witness :
    (⟨"only", 0.4⟩ : Detection) ∉ filteredDetections [[⟨"only", 0.4⟩]] ∧
      extract_text_from_image (OcrOutcome.ok [[⟨"only", 0.4⟩]]) = "" :=
  ⟨(c7_confidence_filter [[⟨"only", 0.4⟩]]).1 ⟨"only", 0.4⟩ (by decide) (by decide),
    (c7_confidence_filter [[⟨"only", 0.4⟩]]).2 (by decide)⟩

lemma lastD_concat (l : List TaskState) (a : TaskState) : lastD (l ++ [a]) = a := by
  induction l with
  | nil => rfl
  | cons b bs ih =>
    cases bs with
    | nil => rfl
    | cons c cs => simpa [lastD] using ih

/-- Every trace consists of the submission entry, a run of intermediate
"processing" snapshots without a processing duration, and one terminal
snapshot: either "completed" carrying a duration or "failed" without one. -/
lemma trace_shape (env : Env) (t0 : ℤ) :
    ∃ mid last,
      fullTrace env t0 = (initTask t0 :: mid) ++ [last] ∧
      (∀ s ∈ mid, s.status = "processing" ∧ s.processing_time = none) ∧
      ((last.status = "completed" ∧ last.processing_time.isSome = true) ∨
        (last.status = "failed" ∧ last.processing_time = none)) := by
  rcases hu : env.upload with e | k
  · refine ⟨[afterUpload (initTask t0)], failUpdate (afterUpload (initTask t0)) e, ?_, ?_,
      Or.inr ⟨rfl, rfl⟩⟩
    · simp [fullTrace, process_bill_analysis, hu]
    · intro s hs
      fin_cases hs
      exact ⟨rfl, rfl⟩
  · by_cases hbt : insufficientText (extract_text_from_image env.ocr)
    · refine ⟨[afterUpload (initTask t0), afterKey (initTask t0) k, afterOcrMsg (initTask t0) k],
        failUpdate (afterOcrMsg (initTask t0) k) "无法从图片中识别出足够的文字信息", ?_, ?_,
        Or.inr ⟨rfl, rfl⟩⟩
      · simp [fullTrace, process_bill_analysis, hu, hbt]
      · intro s hs
        fin_cases hs <;> exact ⟨rfl, rfl⟩
    · rcases hai : analyze_bill_text env.chain (extract_text_from_image env.ocr) with e | bill
      · refine ⟨[afterUpload (initTask t0), afterKey (initTask t0) k, afterOcrMsg (initTask t0) k,
          afterLen (initTask t0) k (extract_text_from_image env.ocr).length,
          afterAiMsg (initTask t0) k (extract_text_from_image env.ocr).length],
          failUpdate (afterAiMsg (initTask t0) k (extract_text_from_image env.ocr).length) e,
          ?_, ?_, Or.inr ⟨rfl, rfl⟩⟩
        · simp [fullTrace, process_bill_analysis, hu, hbt, hai]
        · intro s hs
          fin_cases hs <;> exact ⟨rfl, rfl⟩
      · rcases hdb : env.db with e | rid
        · refine ⟨[afterUpload (initTask t0), afterKey (initTask t0) k, afterOcrMsg (initTask t0) k,
            afterLen (initTask t0) k (extract_text_from_image env.ocr).length,
            afterAiMsg (initTask t0) k (extract_text_from_image env.ocr).length,
            afterDbMsg (initTask t0) k (extract_text_from_image env.ocr).length],
            failUpdate (afterDbMsg (initTask t0) k (extract_text_from_image env.ocr).length)
              ("数据库操作失败: " ++ e),
            ?_, ?_, Or.inr ⟨rfl, rfl⟩⟩
          · simp [fullTrace, process_bill_analysis, hu, hbt, hai, create_bill_record, hdb]
          · intro s hs
            fin_cases hs <;> exact ⟨rfl, rfl⟩
        · refine ⟨[afterUpload (initTask t0), afterKey (initTask t0) k, afterOcrMsg (initTask t0) k,
            afterLen (initTask t0) k (extract_text_from_image env.ocr).length,
            afterAiMsg (initTask t0) k (extract_text_from_image env.ocr).length,
            afterDbMsg (initTask t0) k (extract_text_from_image env.ocr).length],
            afterDone (initTask t0) k (extract_text_from_image env.ocr).length rid
              (env.fin - (initTask t0).start_time),
            ?_, ?_, Or.inl ⟨rfl, rfl⟩⟩
          · simp [fullTrace, process_bill_analysis, hu, hbt, hai, create_bill_record, hdb]
          · intro s hs
            fin_cases hs <;> exact ⟨rfl, rfl⟩

/-- C1 (counterexample): when the text-extraction executor fails internally,
`extract_text_from_image` swallows the exception and returns the ≥ 10
character string `"图片文字识别失败: boom"`, the minimum-content check passes,
the later stages run, and the Job ends "completed" with no error message —
it does NOT transition to Failed carrying the extraction error. -/
theorem c1_ocr_internal_failure_counterexample :
    extract_text_from_image envOcrCrash.ocr = "图片文字识别失败: boom" ∧
    (finalTask envOcrCrash 0).status = "completed" ∧
    (finalTask envOcrCrash 0).error_message = none := by
  decide

/-- C1 (amended): the background task always ends in a terminal snapshot
("completed" or "failed", never an abnormal termination), and any stage that
RAISES — upload, structured parse, persistence — is caught at the
orchestrator boundary, failing the Job with that stage's literal exception
message. The text-extraction executor, however, never raises: its internal
failures are caught inside the executor, which returns the error-message
string `"图片文字识别失败: " ++ msg` as if it were extracted text. -/
theorem c1_stage_exceptions_caught (env : Env) (t0 : ℤ) :
    ((finalTask env t0).status = "completed" ∨ (finalTask env t0).status = "failed") ∧
    (∀ e, env.upload = Except.error e →
      (finalTask env t0).status = "failed" ∧ (finalTask env t0).error_message = some e) ∧
    (∀ k e, env.upload = Except.ok k →
      ¬ insufficientText (extract_text_from_image env.ocr) →
      analyze_bill_text env.chain (extract_text_from_image env.ocr) = Except.error e →
      (finalTask env t0).status = "failed" ∧ (finalTask env t0).error_message = some e) ∧
    (∀ k bill e, env.upload = Except.ok k →
      ¬ insufficientText (extract_text_from_image env.ocr) →
      analyze_bill_text env.chain (extract_text_from_image env.ocr) = Except.ok bill →
      env.db = Except.error e →
      (finalTask env t0).status = "failed" ∧
        (finalTask env t0).error_message = some ("数据库操作失败: " ++ e)) ∧
    (∀ m, extract_text_from_image (OcrOutcome.exn m) = "图片文字识别失败: " ++ m) := by
  refine ⟨?_, ?_, ?_, ?_, fun m => rfl⟩
  · obtain ⟨mid, last, hshape, _, hlast⟩ := trace_shape env t0
    have hf : finalTask env t0 = last := by
      rw [finalTask, hshape, lastD_concat]
    rcases hlast with ⟨h1, _⟩ | ⟨h1, _⟩
    · exact Or.inl (hf ▸ h1)
    · exact Or.inr (hf ▸ h1)
  · intro e hu
    have htr : fullTrace env t0 =
        [initTask t0, afterUpload (initTask t0), failUpdate (afterUpload (initTask t0)) e] := by
      simp [fullTrace, process_bill_analysis, hu]
    rw [finalTask, htr]
    exact ⟨rfl, rfl⟩
  · intro k e hu hgood hai
    have htr : fullTrace env t0 =
        [initTask t0, afterUpload (initTask t0), afterKey (initTask t0) k,
          afterOcrMsg (initTask t0) k,
          afterLen (initTask t0) k (extract_text_from_image env.ocr).length,
          afterAiMsg (initTask t0) k (extract_text_from_image env.ocr).length,
          failUpdate (afterAiMsg (initTask t0) k (extract_text_from_image env.ocr).length) e] := by
      simp [fullTrace, process_bill_analysis, hu, hgood, hai]
    rw [finalTask, htr]
    exact ⟨rfl, rfl⟩
  · intro k bill e hu hgood hai hdb
    have htr : fullTrace env t0 =
        [initTask t0, afterUpload (initTask t0), afterKey (initTask t0) k,
          afterOcrMsg (initTask t0) k,
          afterLen (initTask t0) k (extract_text_from_image env.ocr).length,
          afterAiMsg (initTask t0) k (extract_text_from_image env.ocr).length,
          afterDbMsg (initTask t0) k (extract_text_from_image env.ocr).length,
          failUpdate (afterDbMsg (initTask t0) k (extract_text_from_image env.ocr).length)
            ("数据库操作失败: " ++ e)] := by
      simp [fullTrace, process_bill_analysis, hu, hgood, hai, create_bill_record, hdb]
    rw [finalTask, htr]
    exact ⟨rfl, rfl⟩

/-- C1 (witness): the amended theorem applied to an upload failure — the Job
fails with the stage's literal error message. -/
theorem c1_witness :
    (finalTask envUploadCrash 0).status = "failed" ∧
      (finalTask envUploadCrash 0).error_message = some "图片上传失败: S3Error" :=
  (c1_stage_exceptions_caught envUploadCrash 0).2.1 "图片上传失败: S3Error" rfl

/-- C2: when the structured parse returns amount = −5, the pipeline COMPLETES
and persists a TransactionRecord with amount −5 — `BillRecordModel` carries
no amount constraint and the pipeline never invokes the
`BillCreate.amount_must_be_positive` validator declared in
`app/models/schemas.py`, which does reject −5. -/
theorem c2_negative_amount_flows_through :
    (finalTask envNegAmount 0).status = "completed" ∧
    (finalTask envNegAmount 0).error_message = none ∧
    (persistedRecords envNegAmount 0).map (fun r => r.amount) = [-(5 : Q)] ∧
    amount_must_be_positive (-(5 : Q)) = Except.error "金额必须大于0" := by
  refine ⟨by decide, by decide, by decide, rfl⟩

/-- C4: after a successful upload, if the extracted text is empty or shorter
than 10 characters after stripping, the Job fails with the dedicated
insufficient-text error, the storage key written by the upload stage is
still present on the failed record, no text length or record id was
written, nothing is persisted, and the parse and persistence stages are
never consulted (the outcome is independent of their would-be results). -/
theorem c4_insufficient_text_stage (env : Env) (t0 : ℤ) (k : String)
    (hu : env.upload = Except.ok k)
    (ht : insufficientText (extract_text_from_image env.ocr)) :
    (finalTask env t0).status = "failed" ∧
    (finalTask env t0).error_message = some "无法从图片中识别出足够的文字信息" ∧
    (finalTask env t0).image_path = some k ∧
    (finalTask env t0).ocr_text_length = none ∧
    (finalTask env t0).record_id = none ∧
    persistedRecords env t0 = [] ∧
    (∀ chain' db',
      process_bill_analysis { env with chain := chain', db := db' } (initTask t0) =
        process_bill_analysis env (initTask t0)) := by
  have htr : fullTrace env t0 =
      [initTask t0, afterUpload (initTask t0), afterKey (initTask t0) k,
        afterOcrMsg (initTask t0) k,
        failUpdate (afterOcrMsg (initTask t0) k) "无法从图片中识别出足够的文字信息"] := by
    simp [fullTrace, process_bill_analysis, hu, ht]
  refine ⟨?_, ?_, ?_, ?_, ?_, ?_, ?_⟩
  · rw [finalTask, htr]; rfl
  · rw [finalTask, htr]; rfl
  · rw [finalTask, htr]; rfl
  · rw [finalTask, htr]; rfl
  · rw [finalTask, htr]; rfl
  · simp [persistedRecords, process_bill_analysis, hu, ht]
  · intro chain' db'
    simp [process_bill_analysis, hu, ht]

/-- C4 (witness): the insufficient-text theorem applied to a 5-character
extraction after a successful upload. -/
theorem c4_witness :
    (finalTask envShortText 0).status = "failed" ∧
      (finalTask envShortText 0).error_message = some "无法从图片中识别出足够的文字信息" ∧
      (finalTask envShortText 0).image_path = some "bill_images/s.png" ∧
      persistedRecords envShortText 0 = [] :=
  have h := c4_insufficient_text_stage envShortText 0 "bill_images/s.png" rfl (by decide)
  ⟨h.1, h.2.1, h.2.2.1, h.2.2.2.2.2.1⟩

/-- C5: `analyze_bill` writes the registry entry (status "processing") under
the fresh task id before returning it, so an immediate `get_task_status`
with that id succeeds; and for any identifier absent from the registry,
`get_task_status` answers the distinct unknown-job condition (HTTP 404). -/
theorem c5_registry_insert_before_return (reg : Registry) (id : String) (t0 : ℤ) :
    get_task_status (analyze_bill reg id t0) id = Except.ok (initTask t0) ∧
    (∀ id', lookupTask reg id' = none → get_task_status reg id' = Except.error 404) := by
  constructor
  · unfold get_task_status lookupTask analyze_bill
    rw [List.find?_cons_of_pos _ (by simp)]
    rfl
  · intro id' h
    simp [get_task_status, h]

/-- C5 (witness): submitting "job-1" into an empty registry makes its status
readable at once, while "missing" is answered with 404. -/
theorem c5_witness :
    get_task_status (analyze_bill [] "job-1" 0) "job-1" = Except.ok (initTask 0) ∧
      get_task_status [] "missing" = Except.error 404 :=
  ⟨(c5_registry_insert_before_return [] "job-1" 0).1,
    (c5_registry_insert_before_return [] "job-1" 0).2 "missing" rfl⟩

/-- C6: a terminal status appears only as the very last snapshot of a Job's
trace — every earlier snapshot is still "processing", and the final snapshot
is terminal ("completed" or "failed"); since the background task writes
nothing afterwards, every later `get_task_status` read returns that same
final snapshot. -/
theorem c6_terminal_state_is_final (env : Env) (t0 : ℤ) :
    (∀ s ∈ (fullTrace env t0).dropLast, s.status = "processing") ∧
    ((finalTask env t0).status = "completed" ∨ (finalTask env t0).status = "failed") := by
  obtain ⟨mid, last, hshape, hmid, hlast⟩ := trace_shape env t0
  have hf : finalTask env t0 = last := by
    rw [finalTask, hshape, lastD_concat]
  constructor
  · intro s hs
    rw [hshape, List.dropLast_concat] at hs
    rcases List.mem_cons.mp hs with rfl | h
    · rfl
    · exact (hmid s h).1
  · rcases hlast with ⟨h1, _⟩ | ⟨h1, _⟩
    · exact Or.inl (hf ▸ h1)
    · exact Or.inr (hf ▸ h1)

/-- C6 (witness): on the concrete crash-free run the submission snapshot is
non-terminal and the final snapshot is terminal. -/
theorem c6_witness :
    (initTask 0).status = "processing" ∧
      ((finalTask envOcrCrash 0).status = "completed" ∨
        (finalTask envOcrCrash 0).status = "failed") :=
  ⟨(c6_terminal_state_is_final envOcrCrash 0).1 (initTask 0) (by decide),
    (c6_terminal_state_is_final envOcrCrash 0).2⟩

/-- C10: every registry snapshot of a Job's lifetime carries one of exactly
three status strings — "processing", "completed", "failed" (the five
fine-grained stages surface only through the free-text message) — and the
computed `processing_time` field is present precisely on "completed"
snapshots; a failed Job never has one. -/
theorem c10_status_vocabulary (env : Env) (t0 : ℤ) :
    ∀ s ∈ fullTrace env t0,
      (s.status = "processing" ∨ s.status = "completed" ∨ s.status = "failed") ∧
      (s.processing_time.isSome ↔ s.status = "completed") := by
  obtain ⟨mid, last, hshape, hmid, hlast⟩ := trace_shape env t0
  intro s hs
  rw [hshape] at hs
  rcases List.mem_append.mp hs with h | h
  · rcases List.mem_cons.mp h with rfl | h
    · exact ⟨Or.inl rfl, iff_of_false (by simp [initTask]) (by simp [initTask])⟩
    · obtain ⟨h1, h2⟩ := hmid s h
      exact ⟨Or.inl h1, iff_of_false (by simp [h2]) (by simp [h1])⟩
  · have hsl : s = last := by simpa using h
    subst hsl
    rcases hlast with ⟨h1, h2⟩ | ⟨h1, h2⟩
    · exact ⟨Or.inr (Or.inl h1), iff_of_true h2 h1⟩
    · exact ⟨Or.inr (Or.inr h1), iff_of_false (by simp [h2]) (by simp [h1])⟩

/-- C10 (witness): the status vocabulary and duration-presence invariant
evaluated at the final snapshot of a concrete run. -/
theorem c10_witness :
    ((finalTask envOcrCrash 0).status = "processing" ∨
      (finalTask envOcrCrash 0).status = "completed" ∨
      (finalTask envOcrCrash 0).status = "failed") ∧
    ((finalTask envOcrCrash 0).processing_time.isSome ↔
      (finalTask envOcrCrash 0).status = "completed") :=
  c10_status_vocabulary envOcrCrash 0 (finalTask envOcrCrash 0) (by decide)

end BillAgent
